import Mathlib

/-!
Shallow embedding of the Natours authentication controller
(src/controllers/authController.js and src/unnamed/part_000).

The controller is a thin orchestration layer over external collaborators
(user store, JWT signer, sha256 hash, bcrypt comparison, mailer).  We embed
each handler as a pure Lean function over an explicit store (a list of user
records) and explicit parameters standing for the external capabilities.
-/

namespace Natours

/-- Operational error as produced by `new AppError(message, statusCode)`. -/
structure AppError where
  message : String
  statusCode : Nat
deriving DecidableEq, Repr

/-- A user record (the fields of the mongoose user document that the
controller reads or writes).  `password` holds the stored password hash;
whether it appears in a query result is a projection concern, modelled at
the serialization boundary instead. -/
structure User where
  _id : String
  name : String
  email : String
  password : String
  role : String
  passwordChangedAt : Option Nat
  passwordResetToken : Option String
  passwordResetExpires : Option Nat
deriving DecidableEq, Repr

/-- Modelled from the spec: the user model's `changedPasswordAfter(iat)`
predicate ("user's password-changed timestamp is later than the token's
issued-at time"); the user model file is not part of the sources. -/
def changedPasswordAfter (u : User) (iat : Nat) : Bool :=
  match u.passwordChangedAt with
  | some t => iat < t
  | none => false

/-- JWT configuration: `process.env.JWT_SECRET` and
`process.env.JWT_EXPIRES_IN`. -/
structure Config where
  secret : String
  expiresIn : Nat
deriving DecidableEq, Repr

/-- The decoded payload of a verified token: `{ id, iat }`. -/
structure JwtPayload where
  id : String
  iat : Nat
deriving DecidableEq, Repr

/-- The ways `jwt.verify` can fail. -/
inductive VerifyError where
  | invalidSignature : VerifyError
  | expired : VerifyError
deriving DecidableEq, Repr

/-- Modelled from the spec's Signer interface: a signed token embeds the
user identifier, the issuance time and the expiry instant, and carries the
signing secret (standing for the signature). -/
structure SignedToken where
  id : String
  iat : Nat
  exp : Nat
  sig : String
deriving DecidableEq, Repr

/-- Modelled from the spec's Signer interface:
`sign(payload, secret, expiry) -> token`. -/
def jwtSign (id : String) (secret : String) (expiresIn : Nat) (now : Nat) :
    SignedToken :=
  { id := id, iat := now, exp := now + expiresIn, sig := secret }

/-- Modelled from the spec's Signer interface:
`verify(token, secret) -> payload | fails` — fails if the signature is
invalid or the token has expired (jsonwebtoken treats `exp <= now` as
expired). -/
def jwtVerify (t : SignedToken) (secret : String) (now : Nat) :
    Except VerifyError JwtPayload :=
  if t.sig ≠ secret then Except.error VerifyError.invalidSignature
  else if t.exp ≤ now then Except.error VerifyError.expired
  else Except.ok { id := t.id, iat := t.iat }

/-- `signToken` from authController.js lines 9-13:
`jwt.sign({ id }, process.env.JWT_SECRET, { expiresIn })`. -/
def signToken (id : String) (cfg : Config) (now : Nat) : SignedToken :=
  jwtSign id cfg.secret cfg.expiresIn now

/-- Modelled from the spec: the outward serialization of a user record.
The user model file (which owns the projection/serialization behaviour) is
not part of the sources; the spec states the password hash is "never
serialized outward". -/
def serializeUser (u : User) : List (String × String) :=
  [("_id", u._id), ("name", u.name), ("email", u.email), ("role", u.role)]

/-- A success response produced by `createSendToken` /
`res.status(...).json(...)`. -/
structure ApiResponse where
  httpStatus : Nat
  status : String
  token : SignedToken
  userData : List (String × String)
deriving DecidableEq, Repr

/-- `createSendToken` from authController.js lines 15-25. -/
def createSendToken (user : User) (statusCode : Nat) (cfg : Config)
    (now : Nat) : ApiResponse :=
  { httpStatus := statusCode
    status := "success"
    token := signToken user._id cfg now
    userData := serializeUser user }

/-- `restrictTo(...roles)` from authController.js lines 121-133: pass the
request through when the user's role is among the allowed roles, otherwise
fail with 403. -/
def restrictTo (roles : List String) (user : User) : Except AppError Unit :=
  if ¬ roles.contains user.role then
    Except.error
      { message := "You do not have permission to perform this action"
        statusCode := 403 }
  else Except.ok ()

/-- A user with role "admin" used in concrete instances. -/
def adminUser : User :=
  { _id := "a1", name := "Ada", email := "ada@example.com", password := "h1"
    role := "admin", passwordChangedAt := none, passwordResetToken := none
    passwordResetExpires := none }

/-- A user with role "user" used in concrete instances. -/
def plainUser : User :=
  { _id := "u1", name := "Uma", email := "uma@example.com", password := "h2"
    role := "user", passwordChangedAt := none, passwordResetToken := none
    passwordResetExpires := none }

/-- The slice of the request environment that `protect` consumes: the
Authorization header, the token-verification outcome (`jwt.verify` under
the configured secret), and the user lookup (`User.findById`). -/
structure ProtectEnv where
  authorization : Option String
  verify : String → Except VerifyError JwtPayload
  findById : String → Option User

/-- What `protect` does with a request: forward an error to the central
error handler, or attach the resolved user (`req.user = freshUser`) and
call `next()`. -/
inductive ProtectResult where
  | err : AppError → ProtectResult
  | authorized : User → ProtectResult
deriving DecidableEq, Repr

/-- JS `String.prototype.startsWith` (a prefix test), embedded structurally
on the character list so that concrete instances evaluate. -/
def strStartsWith (s p : String) : Bool :=
  p.data.isPrefixOf s.data

/-- JS `String.prototype.split` with a one-character separator, embedded
structurally on the character list. -/
def splitOnChar (sep : Char) : List Char → List (List Char)
  | [] => [[]]
  | c :: rest =>
    let r := splitOnChar sep rest
    if c = sep then [] :: r
    else
      match r with
      | [] => [[c]]
      | g :: gs => (c :: g) :: gs

/-- JS `h.split(sep)` for a one-character separator. -/
def jsSplit (h : String) (sep : Char) : List String :=
  (splitOnChar sep h.data).map String.mk

/-- The candidate bearer token of protect line 76:
`req.headers.authorization.split(" ")[1]`, folding a missing second
component to the empty string (both are falsy for the line-79 check). -/
def bearerToken (h : String) : String :=
  ((jsSplit h ' ').get? 1).getD ""

/-- Token extraction of protect lines 71-79: the token is the second
split component when the header starts with "Bearer "; the JS truthiness
test `if (!token)` makes a missing or empty component count as no token. -/
def extractToken (authorization : Option String) : Option String :=
  match authorization with
  | none => none
  | some h =>
    if strStartsWith h "Bearer " then
      if bearerToken h = "" then none else some (bearerToken h)
    else none

/-- Modelled from the spec: the centralized error responder turns a failed
token verification into Unauthorized(401) ("expired/invalid token → 401");
the error-controller file is not part of the sources. -/
def verifyFailureResponse : VerifyError → AppError := fun _ =>
  { message := "Invalid token or token expired. Please log in again"
    statusCode := 401 }

/-- `protect` from authController.js lines 69-119. -/
def protect (env : ProtectEnv) : ProtectResult :=
  match extractToken env.authorization with
  | none =>
    ProtectResult.err
      { message := "You\x27re not logged in. Please, log in to get access"
        statusCode := 401 }
  | some token =>
    match env.verify token with
    | Except.error e => ProtectResult.err (verifyFailureResponse e)
    | Except.ok decoded =>
      match env.findById decoded.id with
      | none =>
        ProtectResult.err
          { message := "The user belonging to this token, does no longer exist"
            statusCode := 401 }
      | some freshUser =>
        if changedPasswordAfter freshUser decoded.iat then
          ProtectResult.err
            { message := "User recently changed password. Please log in again"
              statusCode := 401 }
        else ProtectResult.authorized freshUser

/-- `protect` from src/unnamed/part_000 lines 60-110, embedded separately
from that file's text. -/
def protectPart000 (env : ProtectEnv) : ProtectResult :=
  match extractToken env.authorization with
  | none =>
    ProtectResult.err
      { message := "You\x27re not logged in. Please, log in to get access"
        statusCode := 401 }
  | some token =>
    match env.verify token with
    | Except.error e => ProtectResult.err (verifyFailureResponse e)
    | Except.ok decoded =>
      match env.findById decoded.id with
      | none =>
        ProtectResult.err
          { message := "The user belonging to this token, does no longer exist"
            statusCode := 401 }
      | some freshUser =>
        if changedPasswordAfter freshUser decoded.iat then
          ProtectResult.err
            { message := "User recently changed password. Please log in again"
              statusCode := 401 }
        else ProtectResult.authorized freshUser

/-- Claim C9: the Role Gate `restrictTo(...roles)` passes exactly when the user's
role is a member of the allowed roles, and otherwise fails with status 403
with the fixed permission message; it returns a value determined purely by
the role and the list, leaving the user unchanged. -/
theorem restrictTo_characterization (roles : List String) (u : User) :
    (restrictTo roles u = Except.ok () ↔ u.role ∈ roles) ∧
    (u.role ∉ roles →
      restrictTo roles u =
        Except.error
          { message := "You do not have permission to perform this action"
            statusCode := 403 }) := by
  constructor
  · constructor
    · intro h
      by_contra hmem
      simp [restrictTo, List.elem_iff, hmem] at h
    · intro hmem
      simp [restrictTo, List.elem_iff, hmem]
  · intro hmem
    simp [restrictTo, List.elem_iff, hmem]

/-- Claim C9 witness: `allow(user with role admin, "admin", "lead-guide")` passes,
and `allow(user with role user, "admin")` fails with 403. -/
theorem restrictTo_characterization_witness :
    restrictTo ["admin", "lead-guide"] adminUser = Except.ok () ∧
    restrictTo ["admin"] plainUser =
      Except.error
        { message := "You do not have permission to perform this action"
          statusCode := 403 } := by
  refine ⟨?_, ?_⟩
  · exact (restrictTo_characterization ["admin", "lead-guide"] adminUser).1.mpr
      (by decide)
  · exact (restrictTo_characterization ["admin"] plainUser).2 (by decide)

/-- Evaluation of `protect` when no token is extracted. -/
theorem protect_eval_noToken (env : ProtectEnv)
    (hext : extractToken env.authorization = none) :
    protect env = ProtectResult.err
      { message := "You\x27re not logged in. Please, log in to get access"
        statusCode := 401 } := by
  unfold protect
  simp [hext]

/-- Evaluation of `protect` when verification of the extracted token fails. -/
theorem protect_eval_verifyErr (env : ProtectEnv) (t : String)
    (e : VerifyError) (hext : extractToken env.authorization = some t)
    (hvr : env.verify t = Except.error e) :
    protect env = ProtectResult.err (verifyFailureResponse e) := by
  unfold protect
  simp [hext, hvr]

/-- Evaluation of `protect` when the decoded user no longer exists. -/
theorem protect_eval_userGone (env : ProtectEnv) (t : String)
    (d : JwtPayload) (hext : extractToken env.authorization = some t)
    (hvr : env.verify t = Except.ok d) (hfid : env.findById d.id = none) :
    protect env = ProtectResult.err
      { message := "The user belonging to this token, does no longer exist"
        statusCode := 401 } := by
  unfold protect
  simp [hext, hvr, hfid]

/-- Evaluation of `protect` when the user changed the password after the
token was issued. -/
theorem protect_eval_stale (env : ProtectEnv) (t : String) (d : JwtPayload)
    (u : User) (hext : extractToken env.authorization = some t)
    (hvr : env.verify t = Except.ok d) (hfid : env.findById d.id = some u)
    (hch : changedPasswordAfter u d.iat = true) :
    protect env = ProtectResult.err
      { message := "User recently changed password. Please log in again"
        statusCode := 401 } := by
  unfold protect
  simp [hext, hvr, hfid, hch]

/-- Evaluation of `protect` on the authorized path. -/
theorem protect_eval_ok (env : ProtectEnv) (t : String) (d : JwtPayload)
    (u : User) (hext : extractToken env.authorization = some t)
    (hvr : env.verify t = Except.ok d) (hfid : env.findById d.id = some u)
    (hch : changedPasswordAfter u d.iat = false) :
    protect env = ProtectResult.authorized u := by
  unfold protect
  simp [hext, hvr, hfid, hch]

/-- Claim C1: the Access Guard `protect` fails with status 401 exactly when
the Authorization header is absent, does not start with "Bearer ", the
extracted token fails verification, no user exists for the decoded id, or
the user's password-changed timestamp is later than the token's issued-at
time; in every other case it attaches the resolved user and continues.
The hypothesis records that verifying the empty string fails (jwt.verify
rejects an empty token), which covers headers like "Bearer " whose split
has an empty second component. -/
theorem protect_access_guard (env : ProtectEnv)
    (hv : ∀ p, env.verify "" ≠ Except.ok p) :
    ((∃ e, protect env = ProtectResult.err e ∧ e.statusCode = 401) ↔
      (env.authorization = none ∨
        ∃ h, env.authorization = some h ∧
          (¬ strStartsWith h "Bearer " ∨
            (∃ e, env.verify (bearerToken h) = Except.error e) ∨
            ∃ p, env.verify (bearerToken h) = Except.ok p ∧
              (env.findById p.id = none ∨
                ∃ u, env.findById p.id = some u ∧
                  changedPasswordAfter u p.iat = true)))) ∧
    (∀ u, protect env = ProtectResult.authorized u ↔
      ∃ h p, env.authorization = some h ∧ strStartsWith h "Bearer " ∧
        env.verify (bearerToken h) = Except.ok p ∧
        env.findById p.id = some u ∧ changedPasswordAfter u p.iat = false) := by
  have hverr : ∃ e, env.verify "" = Except.error e := by
    cases hve : env.verify "" with
    | error e => exact ⟨e, rfl⟩
    | ok p => exact absurd hve (hv p)
  cases hauth : env.authorization with
  | none =>
    have hext : extractToken env.authorization = none := by
      rw [hauth]; rfl
    have hval := protect_eval_noToken env hext
    refine ⟨⟨fun _ => Or.inl rfl, fun _ => ⟨_, hval, rfl⟩⟩, fun u => ⟨?_, ?_⟩⟩
    · intro hcon
      rw [hval] at hcon
      cases hcon
    · rintro ⟨h, p, hh, -⟩
      cases hh
  | some h =>
    by_cases hb : strStartsWith h "Bearer "
    · by_cases hemp : bearerToken h = ""
      · have hext : extractToken env.authorization = none := by
          rw [hauth]
          simp [extractToken, hb, hemp]
        have hval := protect_eval_noToken env hext
        refine ⟨⟨fun _ => ?_, fun _ => ⟨_, hval, rfl⟩⟩, fun u => ⟨?_, ?_⟩⟩
        · refine Or.inr ⟨h, rfl, Or.inr (Or.inl ?_)⟩
          rw [hemp]
          exact hverr
        · intro hcon
          rw [hval] at hcon
          cases hcon
        · rintro ⟨h2, p, hh2, -, hok, -, -⟩
          rw [Option.some.injEq] at hh2
          subst hh2
          rw [hemp] at hok
          exact absurd hok (hv p)
      · have hext : extractToken env.authorization = some (bearerToken h) := by
          rw [hauth]
          simp [extractToken, hb, hemp]
        cases hvres : env.verify (bearerToken h) with
        | error e =>
          have hval := protect_eval_verifyErr env (bearerToken h) e hext hvres
          refine ⟨⟨fun _ => Or.inr ⟨h, rfl, Or.inr (Or.inl ⟨e, hvres⟩)⟩,
            fun _ => ⟨_, hval, rfl⟩⟩, fun u => ⟨?_, ?_⟩⟩
          · intro hcon
            rw [hval] at hcon
            cases hcon
          · rintro ⟨h2, p, hh2, -, hok, -, -⟩
            rw [Option.some.injEq] at hh2
            subst hh2
            rw [hvres] at hok
            cases hok
        | ok p =>
          cases hfid : env.findById p.id with
          | none =>
            have hval := protect_eval_userGone env (bearerToken h) p hext
              hvres hfid
            refine ⟨⟨fun _ => Or.inr ⟨h, rfl,
              Or.inr (Or.inr ⟨p, hvres, Or.inl hfid⟩)⟩,
              fun _ => ⟨_, hval, rfl⟩⟩, fun u => ⟨?_, ?_⟩⟩
            · intro hcon
              rw [hval] at hcon
              cases hcon
            · rintro ⟨h2, p2, hh2, -, hok, hfind, -⟩
              rw [Option.some.injEq] at hh2
              subst hh2
              rw [hvres] at hok
              rw [Except.ok.injEq] at hok
              subst hok
              rw [hfid] at hfind
              cases hfind
          | some u0 =>
            cases hch : changedPasswordAfter u0 p.iat with
            | true =>
              have hval := protect_eval_stale env (bearerToken h) p u0 hext
                hvres hfid hch
              refine ⟨⟨fun _ => Or.inr ⟨h, rfl,
                Or.inr (Or.inr ⟨p, hvres, Or.inr ⟨u0, hfid, hch⟩⟩)⟩,
                fun _ => ⟨_, hval, rfl⟩⟩, fun u => ⟨?_, ?_⟩⟩
              · intro hcon
                rw [hval] at hcon
                cases hcon
              · rintro ⟨h2, p2, hh2, -, hok, hfind, hnch⟩
                rw [Option.some.injEq] at hh2
                subst hh2
                rw [hvres] at hok
                rw [Except.ok.injEq] at hok
                subst hok
                rw [hfid] at hfind
                rw [Option.some.injEq] at hfind
                subst hfind
                rw [hch] at hnch
                cases hnch
            | false =>
              have hval := protect_eval_ok env (bearerToken h) p u0 hext
                hvres hfid hch
              refine ⟨⟨?_, ?_⟩, fun u => ⟨?_, ?_⟩⟩
              · rintro ⟨e, he, -⟩
                rw [hval] at he
                cases he
              · rintro (hcon | ⟨h2, hh2, hcase⟩)
                · cases hcon
                · rw [Option.some.injEq] at hh2
                  subst hh2
                  rcases hcase with hns | ⟨e, hvr⟩ | ⟨p2, hok, hrest⟩
                  · exact absurd hb hns
                  · rw [hvres] at hvr
                    cases hvr
                  · rw [hvres] at hok
                    rw [Except.ok.injEq] at hok
                    subst hok
                    rcases hrest with hfind | ⟨u2, hfind, hchg⟩
                    · rw [hfid] at hfind
                      cases hfind
                    · rw [hfid] at hfind
                      rw [Option.some.injEq] at hfind
                      subst hfind
                      rw [hch] at hchg
                      cases hchg
              · intro hau
                rw [hval] at hau
                rw [ProtectResult.authorized.injEq] at hau
                subst hau
                exact ⟨h, p, rfl, hb, hvres, hfid, hch⟩
              · rintro ⟨h2, p2, hh2, -, hok, hfind, -⟩
                rw [Option.some.injEq] at hh2
                subst hh2
                rw [hvres] at hok
                rw [Except.ok.injEq] at hok
                subst hok
                rw [hfid] at hfind
                rw [Option.some.injEq] at hfind
                subst hfind
                exact hval
    · have hext : extractToken env.authorization = none := by
        rw [hauth]
        simp [extractToken, hb]
      have hval := protect_eval_noToken env hext
      refine ⟨⟨fun _ => Or.inr ⟨h, rfl, Or.inl hb⟩,
        fun _ => ⟨_, hval, rfl⟩⟩, fun u => ⟨?_, ?_⟩⟩
      · intro hcon
        rw [hval] at hcon
        cases hcon
      · rintro ⟨h2, p, hh2, hbs, -, -, -⟩
        rw [Option.some.injEq] at hh2
        subst hh2
        exact absurd hbs hb

/-- A concrete environment on which `protect` authorizes. -/
def envOk : ProtectEnv :=
  { authorization := some "Bearer tok1"
    verify := fun s =>
      if s = "tok1" then Except.ok { id := "u1", iat := 5 }
      else Except.error VerifyError.invalidSignature
    findById := fun i => if i = "u1" then some plainUser else none }

/-- Claim C1 witness: on a request carrying "Bearer tok1" that verifies to
user id "u1" present in the store with no later password change, `protect`
attaches that user. -/
theorem protect_access_guard_witness :
    protect envOk = ProtectResult.authorized plainUser := by
  have hv : ∀ p, envOk.verify "" ≠ Except.ok p := by
    intro p
    simp [envOk]
  exact ((protect_access_guard envOk hv).2 plainUser).mpr
    ⟨"Bearer tok1", { id := "u1", iat := 5 }, rfl, by decide, by rfl,
      by rfl, by rfl⟩

/-- Claim C10: the `protect` middleware of src/unnamed/part_000 and the one
of src/controllers/authController.js are behaviorally equivalent: on every
environment (same Authorization header, verification outcome, user lookup
and password-change predicate) they produce the same result. -/
theorem protect_part000_equiv (env : ProtectEnv) :
    protectPart000 env = protect env := by
  obtain ⟨auth, vf, fid⟩ := env
  cases auth with
  | none => rfl
  | some h =>
    simp only [protectPart000, protect]

/-- Claim C2: for every user identifier, verifying a token issued by
`signToken` under the same secret yields a payload whose id equals the
identifier as long as the configured expiry duration has not elapsed, and
fails once it has elapsed. -/
theorem signToken_verify_roundtrip (id : String) (cfg : Config)
    (issuedAt checkedAt : Nat) :
    (checkedAt < issuedAt + cfg.expiresIn →
      jwtVerify (signToken id cfg issuedAt) cfg.secret checkedAt =
        Except.ok { id := id, iat := issuedAt }) ∧
    (issuedAt + cfg.expiresIn ≤ checkedAt →
      ∃ e, jwtVerify (signToken id cfg issuedAt) cfg.secret checkedAt =
        Except.error e) := by
  constructor
  · intro hlt
    simp [jwtVerify, signToken, jwtSign, Nat.not_le.mpr hlt]
  · intro hle
    refine ⟨VerifyError.expired, ?_⟩
    simp [jwtVerify, signToken, jwtSign, hle]

/-- Claim C2 witness: a token issued at time 10 with a 100-unit expiry
verifies to its id at time 50 and fails at time 200. -/
theorem signToken_verify_roundtrip_witness :
    jwtVerify (signToken "u1" { secret := "s", expiresIn := 100 } 10)
        "s" 50 = Except.ok { id := "u1", iat := 10 } ∧
    ∃ e, jwtVerify (signToken "u1" { secret := "s", expiresIn := 100 } 10)
        "s" 200 = Except.error e :=
  ⟨(signToken_verify_roundtrip "u1" { secret := "s", expiresIn := 100 }
      10 50).1 (by decide),
   (signToken_verify_roundtrip "u1" { secret := "s", expiresIn := 100 }
      10 200).2 (by decide)⟩

/-- The request body consumed by `login`; JS destructuring leaves a missing
field `undefined`, modelled as `none`. -/
structure LoginBody where
  email : Option String
  password : Option String
deriving DecidableEq, Repr

/-- `login` from authController.js lines 41-67.  `checkPw` stands for the
external `user.correctPassword` (bcrypt comparison against the stored
hash); the JS falsiness test `!email || !password` treats both a missing
field and an empty string as absent. -/
def login (store : List User) (checkPw : String → String → Bool)
    (cfg : Config) (now : Nat) (body : LoginBody) :
    Except AppError ApiResponse :=
  match body.email, body.password with
  | some e, some pw =>
    if e = "" || pw = "" then
      Except.error
        { message := "Please, provide email and password", statusCode := 400 }
    else
      match store.find? (fun u => u.email = e) with
      | none =>
        Except.error
          { message := "Incorrect email or password", statusCode := 401 }
      | some user =>
        if checkPw pw user.password then
          Except.ok (createSendToken user 200 cfg now)
        else
          Except.error
            { message := "Incorrect email or password", statusCode := 401 }
  | _, _ =>
    Except.error
      { message := "Please, provide email and password", statusCode := 400 }

/-- Claim C8: `login` fails with 400 when email or password is missing (or
empty, the JS falsy case); when the email matches no user or the password
check fails it fails with the same 401 error in both cases, so any two
failed-credential runs produce identical error bodies. -/
theorem login_enumeration_resistance (store : List User)
    (checkPw : String → String → Bool) (cfg : Config) (now : Nat) :
    (∀ body : LoginBody,
      (body.email = none ∨ body.email = some "" ∨
        body.password = none ∨ body.password = some "") →
      login store checkPw cfg now body =
        Except.error
          { message := "Please, provide email and password"
            statusCode := 400 }) ∧
    (∀ e pw,
      (store.find? (fun u => u.email = e) = none ∨
        ∃ u, store.find? (fun u => u.email = e) = some u ∧
          checkPw pw u.password = false) →
      e ≠ "" → pw ≠ "" →
      login store checkPw cfg now { email := some e, password := some pw } =
        Except.error
          { message := "Incorrect email or password", statusCode := 401 }) ∧
    (∀ e1 pw1 e2 pw2,
      (store.find? (fun u => u.email = e1) = none ∨
        ∃ u, store.find? (fun u => u.email = e1) = some u ∧
          checkPw pw1 u.password = false) →
      (store.find? (fun u => u.email = e2) = none ∨
        ∃ u, store.find? (fun u => u.email = e2) = some u ∧
          checkPw pw2 u.password = false) →
      e1 ≠ "" → pw1 ≠ "" → e2 ≠ "" → pw2 ≠ "" →
      login store checkPw cfg now
          { email := some e1, password := some pw1 } =
        login store checkPw cfg now
          { email := some e2, password := some pw2 }) := by
  have key : ∀ e pw,
      (store.find? (fun u => u.email = e) = none ∨
        ∃ u, store.find? (fun u => u.email = e) = some u ∧
          checkPw pw u.password = false) →
      e ≠ "" → pw ≠ "" →
      login store checkPw cfg now { email := some e, password := some pw } =
        Except.error
          { message := "Incorrect email or password", statusCode := 401 } := by
    rintro e pw (hfind | ⟨u, hfind, hchk⟩) he hp
    · simp [login, he, hp, hfind]
    · simp [login, he, hp, hfind, hchk]
  refine ⟨?_, key, ?_⟩
  · rintro ⟨oe, op⟩ hfalsy
    rcases oe with _ | e
    · rfl
    · rcases op with _ | pw
      · rfl
      · rcases hfalsy with h | h | h | h
        · cases h
        · rw [Option.some.injEq] at h
          subst h
          simp [login]
        · cases h
        · rw [Option.some.injEq] at h
          subst h
          simp [login]
  · intro e1 pw1 e2 pw2 hf1 hf2 he1 hp1 he2 hp2
    rw [key e1 pw1 hf1 he1 hp1, key e2 pw2 hf2 he2 hp2]

/-- Claim C8 witness: against a one-user store, a login with an unknown
email and a login with the right email but wrong password produce the same
error response. -/
theorem login_enumeration_resistance_witness :
    login [adminUser] (fun cand stored => cand == stored)
        { secret := "s", expiresIn := 100 } 0
        { email := some "x@y.com", password := some "pw" } =
      login [adminUser] (fun cand stored => cand == stored)
        { secret := "s", expiresIn := 100 } 0
        { email := some "ada@example.com", password := some "wrong" } := by
  exact (login_enumeration_resistance [adminUser]
      (fun cand stored => cand == stored)
      { secret := "s", expiresIn := 100 } 0).2.2
    "x@y.com" "pw" "ada@example.com" "wrong"
    (Or.inl (by rfl))
    (Or.inr ⟨adminUser, by rfl, by rfl⟩)
    (by decide) (by decide) (by decide) (by decide)

/-- Persisting a (possibly modified) user document, `user.save()`: the
store keeps every other record and replaces the record with the same id. -/
def saveUser (store : List User) (u : User) : List User :=
  store.map (fun v => if v._id = u._id then u else v)

/-- The user query of resetPassword lines 184-187: find a user whose
stored `passwordResetToken` equals the given hash and whose
`passwordResetExpires` is strictly greater than the current time. -/
def findByResetToken (store : List User) (hashedToken : String)
    (now : Nat) : Option User :=
  store.find? (fun u =>
    decide (u.passwordResetToken = some hashedToken) &&
      match u.passwordResetExpires with
      | some ex => decide (now < ex)
      | none => false)

/-- The request body consumed by `resetPassword` and `updatePassword`
(the new password and its confirmation; the confirmation only feeds the
user model's validation on save, which is external to this file). -/
structure ResetBody where
  password : String
  passwordConfirm : String
deriving DecidableEq, Repr

/-- `resetPassword` from authController.js lines 177-207.  `H` stands for
the sha256 hex digest (`crypto.createHash("sha256").update(t).digest("hex")`).
The returned pair is the response and the resulting user store.  The user
model's pre-save hook (hashing the new password, stamping
`passwordChangedAt`) is external and not part of the sources. -/
def resetPassword (H : String → String) (store : List User)
    (tokenParam : String) (body : ResetBody) (cfg : Config) (now : Nat) :
    Except AppError ApiResponse × List User :=
  let hashedToken := H tokenParam
  match findByResetToken store hashedToken now with
  | none =>
    (Except.error
      { message := "Token is invalid or has expired", statusCode := 400 },
     store)
  | some user =>
    let updated :=
      { user with
          password := body.password
          passwordResetToken := none
          passwordResetExpires := none }
    (Except.ok (createSendToken updated 200 cfg now), saveUser store updated)

/-- One `user.save(...)` call, recording whether validation was bypassed
(`validateBeforeSave: false`). -/
structure SaveCall where
  record : User
  validateBeforeSave : Bool
deriving DecidableEq, Repr

/-- Modelled from the spec: the user model's `createPasswordResetToken`
helper is not part of the sources; per the spec it stores the one-way hash
of the random plain token together with an expiry ("valid for 10 minutes")
on the record and returns the plain token for out-of-band delivery. -/
def createPasswordResetToken (H : String → String) (u : User)
    (plainToken : String) (now : Nat) : User :=
  { u with
      passwordResetToken := some (H plainToken)
      passwordResetExpires := some (now + 10 * 60 * 1000) }

/-- Clearing the reset fields, lines 165-166 and 194-195:
`user.passwordResetToken = undefined; user.passwordResetExpires = undefined`. -/
def clearResetFields (u : User) : User :=
  { u with passwordResetToken := none, passwordResetExpires := none }

/-- `forgotPassword` from authController.js lines 135-175.  `plainToken`
stands for the randomly generated reset token and `emailOk` for the
outcome of `sendEmail`.  The result records the response, the final user
store, and the trace of `user.save` calls in order. -/
def forgotPassword (H : String → String) (store : List User)
    (email : String) (plainToken : String) (emailOk : Bool) (now : Nat) :
    Except AppError (Nat × String) × List User × List SaveCall :=
  match store.find? (fun u => u.email = email) with
  | none =>
    (Except.error
      { message := s!"There\x27s no user with {email} address"
        statusCode := 404 },
     store, [])
  | some user =>
    let withToken := createPasswordResetToken H user plainToken now
    let store1 := saveUser store withToken
    if emailOk then
      (Except.ok (200, "Token sent to email"), store1,
       [{ record := withToken, validateBeforeSave := false }])
    else
      let cleared := clearResetFields withToken
      (Except.error
        { message := "There was an error sending the email. Try again later."
          statusCode := 500 },
       saveUser store1 cleared,
       [{ record := withToken, validateBeforeSave := false },
        { record := cleared, validateBeforeSave := false }])

/-- The invariant of the data model: reset-token hash and expiry are
either both set or both absent. -/
def resetFieldsConsistent (u : User) : Prop :=
  u.passwordResetToken.isSome = u.passwordResetExpires.isSome

instance (u : User) : Decidable (resetFieldsConsistent u) :=
  inferInstanceAs (Decidable (_ = _))

/-- `signup` from authController.js lines 27-39.  `createUser` stands for
`User.create` (the user model assembles the stored record, hashing the
password externally); the handler sends a 201 response through
`createSendToken`. -/
def signup (createUser : User) (cfg : Config) (now : Nat) : ApiResponse :=
  createSendToken createUser 201 cfg now

/-- `updatePassword` from authController.js lines 209-231.  The current
user comes from `protect`; the record is re-fetched by id with the
password selected, the posted current password is checked, and on success
the new password is saved and a 200 response issued.  A missing record
would make the JS method call throw, surfacing as a generic server
error. -/
def updatePassword (store : List User) (checkPw : String → String → Bool)
    (currentUserId : String) (passwordCurrent : String) (body : ResetBody)
    (cfg : Config) (now : Nat) : Except AppError ApiResponse × List User :=
  match store.find? (fun u => u._id = currentUserId) with
  | none =>
    (Except.error { message := "TypeError", statusCode := 500 }, store)
  | some user =>
    if ¬ checkPw passwordCurrent user.password then
      (Except.error
        { message := "You current password is wrong", statusCode := 401 },
       store)
    else
      let updated := { user with password := body.password }
      (Except.ok (createSendToken updated 200 cfg now),
       saveUser store updated)

/-- A concrete injective, fixed-point-free function standing in for the
sha256 hex digest in concrete instances. -/
def tagHash : String → String := fun s => "#" ++ s

/-- `tagHash` is injective. -/
theorem tagHash_injective : Function.Injective tagHash := by
  intro a b hab
  have hd := congrArg String.data hab
  simp only [tagHash, String.data_append] at hd
  exact String.ext (List.append_cancel_left hd)

/-- `tagHash` has no fixed point. -/
theorem tagHash_no_fixed_point : ∀ s, tagHash s ≠ s := by
  intro s h
  have hlen := congrArg String.length h
  simp [tagHash, String.length_append] at hlen
  exact absurd hlen (by decide)

/-- `List.find?` on a one-element list. -/
theorem find?_singleton {α : Type} (p : α → Bool) (a : α) :
    List.find? p [a] = if p a then some a else none := by
  cases hp : p a <;> simp [List.find?, hp]

/-- Claim C3: resetPassword matches an incoming reset token by hashing it
and looking for a user whose stored hash equals it with an unexpired
expiry; under the collision-resistance (injectivity) and one-wayness
(no fixed point) assumptions on the hash, the match succeeds exactly for
the plaintext that generated the stored hash and only before expiry, and
the stored hash never equals the plaintext. -/
theorem resetToken_match_exact (H : String → String)
    (hinj : Function.Injective H) (hnf : ∀ s, H s ≠ s)
    (u : User) (plain incoming : String) (now : Nat)
    (hstored : u.passwordResetToken = some (H plain)) :
    ((findByResetToken [u] (H incoming) now).isSome ↔
      (incoming = plain ∧
        ∃ ex, u.passwordResetExpires = some ex ∧ now < ex)) ∧
    H plain ≠ plain := by
  refine ⟨?_, hnf plain⟩
  simp only [findByResetToken, find?_singleton, hstored]
  by_cases heq : H incoming = H plain
  · have hpl : incoming = plain := hinj heq
    subst hpl
    cases hexp : u.passwordResetExpires with
    | none => simp [hexp]
    | some ex =>
      by_cases hlt : now < ex
      · simp [hexp, hlt]
      · simp [hexp, hlt]
  · have hne : incoming ≠ plain := fun hc => heq (by rw [hc])
    have hne2 : ¬ (H plain = H incoming) := fun hc => heq hc.symm
    simp [hne, hne2]

/-- A user holding a concrete stored reset-token hash and expiry. -/
def resetUser : User :=
  { adminUser with
      passwordResetToken := some (tagHash "tkn")
      passwordResetExpires := some 100 }

/-- Claim C3 witness: with the stored hash generated from "tkn" and expiry
100, the lookup at time 50 matches exactly the plaintext "tkn", and the
hash differs from the plaintext. -/
theorem resetToken_match_exact_witness :
    ((findByResetToken [resetUser] (tagHash "tkn") 50).isSome ↔
      ("tkn" = "tkn" ∧
        ∃ ex, resetUser.passwordResetExpires = some ex ∧ 50 < ex)) ∧
    tagHash "tkn" ≠ "tkn" :=
  resetToken_match_exact tagHash tagHash_injective tagHash_no_fixed_point
    resetUser "tkn" "tkn" 50 rfl

/-- Claim C5: when no user matches the hashed incoming token with an
unexpired expiry, resetPassword fails with 400 "Token is invalid or has
expired" and returns the store unchanged (no write, password untouched). -/
theorem resetPassword_invalid_token (H : String → String)
    (store : List User) (tokenParam : String) (body : ResetBody)
    (cfg : Config) (now : Nat)
    (hnomatch : findByResetToken store (H tokenParam) now = none) :
    resetPassword H store tokenParam body cfg now =
      (Except.error
        { message := "Token is invalid or has expired", statusCode := 400 },
       store) := by
  simp [resetPassword, hnomatch]

/-- Claim C5 witness: on a store whose only user carries no reset token,
resetPassword leaves the store unchanged and reports 400. -/
theorem resetPassword_invalid_token_witness :
    resetPassword tagHash [adminUser] "tkn"
        { password := "new", passwordConfirm := "new" }
        { secret := "s", expiresIn := 100 } 0 =
      (Except.error
        { message := "Token is invalid or has expired", statusCode := 400 },
       [adminUser]) :=
  resetPassword_invalid_token tagHash [adminUser] "tkn"
    { password := "new", passwordConfirm := "new" }
    { secret := "s", expiresIn := 100 } 0 (by rfl)

/-- Claim C6: forgotPassword fails with 404 when the email matches no
user; otherwise the record carrying the reset-token hash and expiry is
saved with validation bypassed before the email outcome is considered; on
email failure the reset fields are cleared and saved again (compensating
write, no further save) and the request fails with 500; on success the
response is 200 with the success message. -/
theorem forgotPassword_flow (H : String → String) (store : List User)
    (email plainToken : String) (emailOk : Bool) (now : Nat) :
    (store.find? (fun u => u.email = email) = none →
      forgotPassword H store email plainToken emailOk now =
        (Except.error
          { message := s!"There\x27s no user with {email} address"
            statusCode := 404 },
         store, [])) ∧
    (∀ user, store.find? (fun u => u.email = email) = some user →
      (∃ rest, (forgotPassword H store email plainToken emailOk now).2.2 =
        { record := createPasswordResetToken H user plainToken now
          validateBeforeSave := false } :: rest) ∧
      ((createPasswordResetToken H user plainToken now).passwordResetToken =
          some (H plainToken) ∧
        (createPasswordResetToken H user plainToken now).passwordResetExpires =
          some (now + 10 * 60 * 1000)) ∧
      (emailOk = true →
        forgotPassword H store email plainToken emailOk now =
          (Except.ok (200, "Token sent to email"),
           saveUser store (createPasswordResetToken H user plainToken now),
           [{ record := createPasswordResetToken H user plainToken now
              validateBeforeSave := false }])) ∧
      (emailOk = false →
        (clearResetFields
            (createPasswordResetToken H user plainToken now)).passwordResetToken =
          none ∧
        (clearResetFields
            (createPasswordResetToken H user plainToken now)).passwordResetExpires =
          none ∧
        forgotPassword H store email plainToken emailOk now =
          (Except.error
            { message := "There was an error sending the email. Try again later."
              statusCode := 500 },
           saveUser
             (saveUser store (createPasswordResetToken H user plainToken now))
             (clearResetFields (createPasswordResetToken H user plainToken now)),
           [{ record := createPasswordResetToken H user plainToken now
              validateBeforeSave := false },
            { record :=
                clearResetFields (createPasswordResetToken H user plainToken now)
              validateBeforeSave := false }]))) := by
  constructor
  · intro hfind
    simp [forgotPassword, hfind]
  · intro user hfind
    cases emailOk with
    | true =>
      refine ⟨⟨[], ?_⟩, ⟨rfl, rfl⟩, fun _ => ?_, fun hcon => by cases hcon⟩
      · simp [forgotPassword, hfind]
      · simp [forgotPassword, hfind]
    | false =>
      refine ⟨⟨[⟨clearResetFields
              (createPasswordResetToken H user plainToken now), false⟩], ?_⟩,
        ⟨rfl, rfl⟩,
        ⟨fun hcon => (nomatch hcon), fun _ => ⟨rfl, rfl, ?_⟩⟩⟩
      · simp [forgotPassword, hfind]
      · simp [forgotPassword, hfind]

/-- Claim C6 witness: on a one-user store with a working mailer, the
record carrying hash and expiry is saved with validation bypassed and the
response is 200 with the success message. -/
theorem forgotPassword_flow_witness :
    forgotPassword tagHash [adminUser] "ada@example.com" "tkn" true 0 =
      (Except.ok (200, "Token sent to email"),
       saveUser [adminUser]
         (createPasswordResetToken tagHash adminUser "tkn" 0),
       [{ record := createPasswordResetToken tagHash adminUser "tkn" 0
          validateBeforeSave := false }]) :=
  ((forgotPassword_flow tagHash [adminUser] "ada@example.com" "tkn"
      true 0).2 adminUser (by rfl)).2.2.1 rfl

/-- Every member of `saveUser store u` is `u` or a member of `store`. -/
theorem mem_saveUser {store : List User} {u v : User}
    (hv : v ∈ saveUser store u) : v = u ∨ v ∈ store := by
  simp only [saveUser, List.mem_map] at hv
  obtain ⟨w, hw, hmap⟩ := hv
  by_cases hid : w._id = u._id
  · rw [if_pos hid] at hmap
    exact Or.inl hmap.symm
  · rw [if_neg hid] at hmap
    exact Or.inr (hmap ▸ hw)

/-- Claim C7: the reset-fields invariant (hash and expiry both set or both
absent) is preserved: forgotPassword sets both together and its
email-failure branch clears both together; a successful resetPassword
clears both together; in every branch all records of the resulting store
stay consistent. -/
theorem reset_fields_invariant (H : String → String) (store : List User)
    (email plainToken tokenParam : String) (emailOk : Bool)
    (body : ResetBody) (cfg : Config) (now : Nat)
    (hstore : ∀ v ∈ store, resetFieldsConsistent v) :
    (∀ v ∈ (forgotPassword H store email plainToken emailOk now).2.1,
      resetFieldsConsistent v) ∧
    (∀ v ∈ (resetPassword H store tokenParam body cfg now).2,
      resetFieldsConsistent v) := by
  constructor
  · cases hfind : store.find? (fun u => u.email = email) with
    | none =>
      have hres : (forgotPassword H store email plainToken emailOk now).2.1 =
          store := by
        simp [forgotPassword, hfind]
      rw [hres]
      exact hstore
    | some user =>
      cases emailOk with
      | true =>
        have hres :
            (forgotPassword H store email plainToken true now).2.1 =
              saveUser store
                (createPasswordResetToken H user plainToken now) := by
          simp [forgotPassword, hfind]
        rw [hres]
        intro v hv
        rcases mem_saveUser hv with rfl | hmem
        · rfl
        · exact hstore v hmem
      | false =>
        have hres :
            (forgotPassword H store email plainToken false now).2.1 =
              saveUser
                (saveUser store
                  (createPasswordResetToken H user plainToken now))
                (clearResetFields
                  (createPasswordResetToken H user plainToken now)) := by
          simp [forgotPassword, hfind]
        rw [hres]
        intro v hv
        rcases mem_saveUser hv with rfl | hv2
        · rfl
        · rcases mem_saveUser hv2 with rfl | hv3
          · rfl
          · exact hstore v hv3
  · cases hfindR : findByResetToken store (H tokenParam) now with
    | none =>
      have hres : (resetPassword H store tokenParam body cfg now).2 =
          store := by
        simp [resetPassword, hfindR]
      rw [hres]
      exact hstore
    | some user =>
      have hres : (resetPassword H store tokenParam body cfg now).2 =
          saveUser store
            { user with
                password := body.password
                passwordResetToken := none
                passwordResetExpires := none } := by
        simp [resetPassword, hfindR]
      rw [hres]
      intro v hv
      rcases mem_saveUser hv with rfl | hmem
      · rfl
      · exact hstore v hmem

/-- Claim C7 witness: starting from a consistent one-user store, both a
failing forgotPassword run and a resetPassword run leave every record
consistent. -/
theorem reset_fields_invariant_witness :
    (∀ v ∈ (forgotPassword tagHash [adminUser] "ada@example.com" "tkn"
        false 0).2.1, resetFieldsConsistent v) ∧
    (∀ v ∈ (resetPassword tagHash [adminUser] "tkn"
        { password := "new", passwordConfirm := "new" }
        { secret := "s", expiresIn := 100 } 0).2,
      resetFieldsConsistent v) :=
  reset_fields_invariant tagHash [adminUser] "ada@example.com" "tkn" "tkn"
    false { password := "new", passwordConfirm := "new" }
    { secret := "s", expiresIn := 100 } 0 (by decide)

/-- The outward serialization of a user never carries a "password" key. -/
theorem serializeUser_no_password (u : User) :
    ∀ kv ∈ serializeUser u, kv.1 ≠ "password" := by
  intro kv hkv
  simp only [serializeUser, List.mem_cons, List.mem_singleton,
    List.not_mem_nil, or_false] at hkv
  rcases hkv with rfl | rfl | rfl | rfl <;> simp

/-- Every successful `login` response comes from `createSendToken` with
status 200. -/
theorem login_ok_shape (store : List User)
    (checkPw : String → String → Bool) (cfg : Config) (now : Nat)
    (body : LoginBody) (r : ApiResponse)
    (hr : login store checkPw cfg now body = Except.ok r) :
    ∃ u, r = createSendToken u 200 cfg now := by
  rcases body with ⟨oe, op⟩
  rcases oe with _ | e
  · cases hr
  · rcases op with _ | pw
    · cases hr
    · by_cases he : e = ""
      · simp [login, he] at hr
      · by_cases hpw : pw = ""
        · simp [login, he, hpw] at hr
        · cases hfind : store.find? (fun u => u.email = e) with
          | none => simp [login, he, hpw, hfind] at hr
          | some user =>
            by_cases hchk : checkPw pw user.password
            · simp [login, he, hpw, hfind, hchk] at hr
              exact ⟨user, hr.symm⟩
            · simp [login, he, hpw, hfind, hchk] at hr

/-- Every successful `resetPassword` response comes from `createSendToken`
with status 200. -/
theorem resetPassword_ok_shape (H : String → String) (store : List User)
    (tokenParam : String) (body : ResetBody) (cfg : Config) (now : Nat)
    (r : ApiResponse) (s2 : List User)
    (hr : resetPassword H store tokenParam body cfg now =
      (Except.ok r, s2)) :
    ∃ u, r = createSendToken u 200 cfg now := by
  cases hfind : findByResetToken store (H tokenParam) now with
  | none => simp [resetPassword, hfind] at hr
  | some user =>
    simp [resetPassword, hfind, Prod.ext_iff] at hr
    exact ⟨_, hr.1.symm⟩

/-- Every successful `updatePassword` response comes from
`createSendToken` with status 200. -/
theorem updatePassword_ok_shape (store : List User)
    (checkPw : String → String → Bool) (currentUserId : String)
    (passwordCurrent : String) (body : ResetBody) (cfg : Config)
    (now : Nat) (r : ApiResponse) (s2 : List User)
    (hr : updatePassword store checkPw currentUserId passwordCurrent body
      cfg now = (Except.ok r, s2)) :
    ∃ u, r = createSendToken u 200 cfg now := by
  cases hfind : store.find? (fun u => u._id = currentUserId) with
  | none => simp [updatePassword, hfind] at hr
  | some user =>
    by_cases hchk : checkPw passwordCurrent user.password
    · simp [updatePassword, hfind, hchk, Prod.ext_iff] at hr
      exact ⟨_, hr.1.symm⟩
    · simp [updatePassword, hfind, hchk] at hr

/-- Claim C4: every success response that includes a user — signup (201),
login (200), resetPassword (200), updatePassword (200) — serializes a
sanitized user: the stored password hash never appears in the response
body, even though login and updatePassword operate on a record fetched
with the password selected. -/
theorem responses_never_serialize_password (store : List User)
    (checkPw : String → String → Bool) (cfg : Config) (now : Nat)
    (newUser : User) (body : LoginBody) (H : String → String)
    (tokenParam : String) (rbody : ResetBody)
    (currentUserId passwordCurrent : String) :
    (∀ kv ∈ (signup newUser cfg now).userData, kv.1 ≠ "password") ∧
    (∀ r, login store checkPw cfg now body = Except.ok r →
      ∀ kv ∈ r.userData, kv.1 ≠ "password") ∧
    (∀ r s2, resetPassword H store tokenParam rbody cfg now =
        (Except.ok r, s2) →
      ∀ kv ∈ r.userData, kv.1 ≠ "password") ∧
    (∀ r s2, updatePassword store checkPw currentUserId passwordCurrent
        rbody cfg now = (Except.ok r, s2) →
      ∀ kv ∈ r.userData, kv.1 ≠ "password") := by
  refine ⟨?_, ?_, ?_, ?_⟩
  · exact serializeUser_no_password newUser
  · intro r hr
    obtain ⟨u, rfl⟩ := login_ok_shape store checkPw cfg now body r hr
    exact serializeUser_no_password u
  · intro r s2 hr
    obtain ⟨u, rfl⟩ :=
      resetPassword_ok_shape H store tokenParam rbody cfg now r s2 hr
    exact serializeUser_no_password u
  · intro r s2 hr
    obtain ⟨u, rfl⟩ := updatePassword_ok_shape store checkPw currentUserId
      passwordCurrent rbody cfg now r s2 hr
    exact serializeUser_no_password u

/-- Claim C4 witness: the user payload of a concrete successful login
carries no "password" key, discharging the success hypothesis on a store
whose record was fetched with its password hash present. -/
theorem responses_never_serialize_password_witness :
    ∀ kv ∈ (createSendToken adminUser 200
        { secret := "s", expiresIn := 100 } 0).userData,
      kv.1 ≠ "password" :=
  (responses_never_serialize_password [adminUser]
      (fun cand stored => cand == stored)
      { secret := "s", expiresIn := 100 } 0 adminUser
      { email := some "ada@example.com", password := some "h1" } tagHash
      "tkn" { password := "new", passwordConfirm := "new" }
      "a1" "h1").2.1
    (createSendToken adminUser 200 { secret := "s", expiresIn := 100 } 0)
    (by rfl)

end Natours
